import Mathlib

/-!
Shallow embedding of `src/ambientika_py/__init__.py` (the Result-based
async client of the `ambientika-py` repository) and proofs about it.

Modelling conventions:
* JSON values are the inductive `Json` below; JSON numbers are modelled as
  integers (no operation in the client computes on numeric payloads, they
  are only stored and compared verbatim).
* `aiohttp` responses are modelled by `HttpResponse`: `status` is the HTTP
  status, `contentType` the value of the `Content-Type` header (`none` when
  the header is absent), and `body` the JSON value `response.json()` yields.
* The network is an explicit oracle `HttpRequest → HttpResponse`; every
  operation returns its Python result together with the list of requests it
  issued, in order.
* Python exceptions that the client can raise (`KeyError`, `TypeError`,
  `NotImplementedError`) are modelled by the `Except PyExn` monad; a
  `returns.result.Result` value is the inductive `Result` with constructors
  `Success` and `Failure`, exactly the two classes the Python `match`
  statements test for.
* Per the Python annotations `host: str` and `token: str`, hosts and tokens
  are Lean `String`s; all verbatim-copied JSON payload fields stay `Json`.
-/

set_option autoImplicit false

namespace AmbientikaPy

/-- A JSON value, as produced by `response.json()`. Numbers are modelled as
integers; the client never computes on numeric payloads. -/
inductive Json where
  | null
  | bool (b : Bool)
  | num (n : Int)
  | str (s : String)
  | arr (elems : List Json)
  | obj (fields : List (String × Json))
deriving Repr

/-- The Python exceptions the client code can raise. -/
inductive PyExn where
  | keyError (key : Json)
  | typeError (msg : String)
  | notImplementedError
deriving Repr

/-- The `returns.result.Result` type: `Success(value)` or `Failure(error)`. -/
inductive Result (α : Type) (ε : Type) where
  | Success (value : α)
  | Failure (error : ε)
deriving Repr

/-- The `HttpError` TypedDict: `{status_code: int, data: Optional[Any]}`. -/
structure HttpError where
  status_code : Nat
  data : Option Json
deriving Repr

/-- An HTTP response as the client observes it through `aiohttp`:
status, the `Content-Type` header (`none` if absent), and the JSON value
`response.json()` would produce for the body. -/
structure HttpResponse where
  status : Nat
  contentType : Option String
  body : Json
deriving Repr

/-- An outbound HTTP request: method, full URL, headers, query parameters
and optional JSON body. -/
structure HttpRequest where
  method : String
  url : String
  headers : List (String × String)
  params : List (String × Json)
  jsonBody : Option Json
deriving Repr

/-- The network: every request gets a response. -/
def Oracle : Type := HttpRequest → HttpResponse

/-- The `AmbientikaApi` class: an authenticated API connection holding
`host`, `id` and `token`. The `id` is stored verbatim from the
authentication response; `host` and `token` are strings per the Python
annotations. -/
structure AmbientikaApi where
  host : String
  id : Json
  token : String
deriving Repr

/-- Python `str.lower()`, character by character. `Char.toLower` agrees
with Python on ASCII, which covers every content-type string the client
compares against. -/
def pyLower (s : String) : String :=
  String.mk (s.data.map Char.toLower)

/-- Lines 40-46 / 58-64 / 301-307 of the source: the `data` attached to a
non-200 response is the parsed JSON body exactly when
`response.headers.get("Content-Type", "").lower() == "application/json"`,
else `None`. -/
def errorData (resp : HttpResponse) : Option Json :=
  if pyLower (resp.contentType.getD "") == "application/json" then
    some resp.body
  else
    none

/-- The response interpretation of `AmbientikaApi.get` (lines 37-47):
200 yields `Success` of the parsed body, anything else `Failure` with
`{status_code, data}`. -/
def interpretGetResponse (resp : HttpResponse) : Result Json HttpError :=
  if resp.status == 200 then
    .Success resp.body
  else
    .Failure ⟨resp.status, errorData resp⟩

/-- The response interpretation of `AmbientikaApi.post` (lines 55-65):
200 yields `Success(None)`, anything else `Failure` with
`{status_code, data}`. -/
def interpretPostResponse (resp : HttpResponse) : Result Unit HttpError :=
  if resp.status == 200 then
    .Success ()
  else
    .Failure ⟨resp.status, errorData resp⟩

/-- The headers every authenticated call attaches (lines 33 and 51):
`{"Authorization": f"Bearer {self.token}"}`. -/
def AmbientikaApi.bearerHeaders (api : AmbientikaApi) : List (String × String) :=
  [("Authorization", "Bearer " ++ api.token)]

/-- The request `AmbientikaApi.get` issues for `path` and `params`. -/
def AmbientikaApi.getRequest (api : AmbientikaApi) (path : String)
    (params : List (String × Json)) : HttpRequest :=
  { method := "GET"
    url := api.host ++ "/" ++ path
    headers := api.bearerHeaders
    params := params
    jsonBody := none }

/-- Embeds `AmbientikaApi.get` (lines 29-47): issue one GET and interpret the
response. Returns the Python result and the request trace. -/
def AmbientikaApi.get (api : AmbientikaApi) (path : String)
    (params : List (String × Json)) (oracle : Oracle) :
    Result Json HttpError × List HttpRequest :=
  let req := api.getRequest path params
  (interpretGetResponse (oracle req), [req])

/-- The request `AmbientikaApi.post` issues for `path` and `body`. -/
def AmbientikaApi.postRequest (api : AmbientikaApi) (path : String)
    (body : Json) : HttpRequest :=
  { method := "POST"
    url := api.host ++ "/" ++ path
    headers := api.bearerHeaders
    params := []
    jsonBody := some body }

/-- Embeds `AmbientikaApi.post` (lines 49-65): issue one POST and interpret the
response. Returns the Python result and the request trace. -/
def AmbientikaApi.post (api : AmbientikaApi) (path : String) (body : Json)
    (oracle : Oracle) : Result Unit HttpError × List HttpRequest :=
  let req := api.postRequest path body
  (interpretPostResponse (oracle req), [req])

/-- The `OperatingMode` enumeration (lines 68-82): the closed enumeration of operating
modes, with `IntEnum` values 0-11. -/
inductive OperatingMode where
  | Smart
  | Auto
  | ManualHeatRecovery
  | Night
  | AwayHome
  | Surveillance
  | TimedExpulsion
  | Expulsion
  | Intake
  | MasterSlaveFlow
  | SlaveMasterFlow
  | Off
deriving Repr, DecidableEq

/-- The `IntEnum` value (`.value` in Python) of an `OperatingMode`. -/
def OperatingMode.val : OperatingMode → Int
  | .Smart => 0
  | .Auto => 1
  | .ManualHeatRecovery => 2
  | .Night => 3
  | .AwayHome => 4
  | .Surveillance => 5
  | .TimedExpulsion => 6
  | .Expulsion => 7
  | .Intake => 8
  | .MasterSlaveFlow => 9
  | .SlaveMasterFlow => 10
  | .Off => 11

/-- The Python member name of an `OperatingMode`. -/
def OperatingMode.pyName : OperatingMode → String
  | .Smart => "Smart"
  | .Auto => "Auto"
  | .ManualHeatRecovery => "ManualHeatRecovery"
  | .Night => "Night"
  | .AwayHome => "AwayHome"
  | .Surveillance => "Surveillance"
  | .TimedExpulsion => "TimedExpulsion"
  | .Expulsion => "Expulsion"
  | .Intake => "Intake"
  | .MasterSlaveFlow => "MasterSlaveFlow"
  | .SlaveMasterFlow => "SlaveMasterFlow"
  | .Off => "Off"

/-- Name lookup for `OperatingMode[s]`: case-sensitive exact match against
the member names. -/
def OperatingMode.fromName (s : String) : Option OperatingMode :=
  if s = "Smart" then some .Smart
  else if s = "Auto" then some .Auto
  else if s = "ManualHeatRecovery" then some .ManualHeatRecovery
  else if s = "Night" then some .Night
  else if s = "AwayHome" then some .AwayHome
  else if s = "Surveillance" then some .Surveillance
  else if s = "TimedExpulsion" then some .TimedExpulsion
  else if s = "Expulsion" then some .Expulsion
  else if s = "Intake" then some .Intake
  else if s = "MasterSlaveFlow" then some .MasterSlaveFlow
  else if s = "SlaveMasterFlow" then some .SlaveMasterFlow
  else if s = "Off" then some .Off
  else none

/-- Python `OperatingMode[j]`: succeeds only on a string that is a member
name; any other value raises `KeyError` with the looked-up value as key. -/
def OperatingMode.fromWire (j : Json) : Except PyExn OperatingMode :=
  match j with
  | .str s =>
    match OperatingMode.fromName s with
    | some m => .ok m
    | none => .error (.keyError (.str s))
  | _ => .error (.keyError j)

/-- The `FanSpeed` enumeration (lines 85-90): Low = 0, Medium = 1, High = 2. -/
inductive FanSpeed where
  | Low
  | Medium
  | High
deriving Repr, DecidableEq

/-- The `IntEnum` value of a `FanSpeed`. -/
def FanSpeed.val : FanSpeed → Int
  | .Low => 0
  | .Medium => 1
  | .High => 2

/-- Name lookup for `FanSpeed[s]`. -/
def FanSpeed.fromName (s : String) : Option FanSpeed :=
  if s = "Low" then some .Low
  else if s = "Medium" then some .Medium
  else if s = "High" then some .High
  else none

/-- Python `FanSpeed[j]`. -/
def FanSpeed.fromWire (j : Json) : Except PyExn FanSpeed :=
  match j with
  | .str s =>
    match FanSpeed.fromName s with
    | some m => .ok m
    | none => .error (.keyError (.str s))
  | _ => .error (.keyError j)

/-- The `HumidityLevel` enumeration (lines 93-98): Dry = 0, Normal = 1, Moist = 2. -/
inductive HumidityLevel where
  | Dry
  | Normal
  | Moist
deriving Repr, DecidableEq

/-- The `IntEnum` value of a `HumidityLevel`. -/
def HumidityLevel.val : HumidityLevel → Int
  | .Dry => 0
  | .Normal => 1
  | .Moist => 2

/-- Name lookup for `HumidityLevel[s]`. -/
def HumidityLevel.fromName (s : String) : Option HumidityLevel :=
  if s = "Dry" then some .Dry
  else if s = "Normal" then some .Normal
  else if s = "Moist" then some .Moist
  else none

/-- Python `HumidityLevel[j]`. -/
def HumidityLevel.fromWire (j : Json) : Except PyExn HumidityLevel :=
  match j with
  | .str s =>
    match HumidityLevel.fromName s with
    | some m => .ok m
    | none => .error (.keyError (.str s))
  | _ => .error (.keyError j)

/-- The `DeviceStatus` TypedDict (lines 101-117). The enum-typed fields are
decoded; all other fields are copied verbatim from the wire JSON. -/
structure DeviceStatus where
  operating_mode : OperatingMode
  fan_speed : FanSpeed
  humidity_level : HumidityLevel
  temperature : Json
  humidity : Json
  air_quality : Json
  humidity_alarm : Json
  filters_status : Json
  night_alarm : Json
  device_role : Json
  last_operating_mode : OperatingMode
  packet_type : Json
  device_type : Json
  device_serial_number : Json
deriving Repr

/-- The `DeviceMode` TypedDict (lines 119-124). -/
structure DeviceMode where
  operating_mode : OperatingMode
  fan_speed : FanSpeed
  humidity_level : HumidityLevel
deriving Repr, DecidableEq

/-- Python subscripting `data[key]`: on a dict, the value or `KeyError`;
on any non-dict JSON value, `TypeError`. -/
def getItem (data : Json) (key : String) : Except PyExn Json :=
  match data with
  | .obj fields =>
    match fields.lookup key with
    | some v => .ok v
    | none => .error (.keyError (.str key))
  | _ => .error (.typeError "value is not subscriptable")

/-- Python iteration `for x in j`: lists yield their elements, dicts their
keys, strings their one-character substrings; other values raise
`TypeError`. -/
def toIter (j : Json) : Except PyExn (List Json) :=
  match j with
  | .arr elems => .ok elems
  | .obj fields => .ok (fields.map (fun f => .str f.1))
  | .str s => .ok (s.data.map (fun c => .str (String.mk [c])))
  | _ => .error (.typeError "value is not iterable")

/-- Left-to-right effectful map, as a Python list comprehension evaluates:
the first raised exception aborts the whole comprehension. -/
def mapExcept {β : Type} (f : Json → Except PyExn β) :
    List Json → Except PyExn (List β)
  | [] => .ok []
  | x :: xs => do
    let y ← f x
    let ys ← mapExcept f xs
    return y :: ys

/-- A `Device` (lines 127-154): verbatim-copied attributes plus the shared
API connection. -/
structure Device where
  id : Json
  device_type : Json
  serial_number : Json
  user_id : Json
  name : Json
  role : Json
  zone_index : Json
  installation : Json
  room_id : Json
  api : AmbientikaApi
deriving Repr

/-- Embeds `Device.__init__` (lines 142-154): copy the camelCase wire fields;
a missing key raises `KeyError`. -/
def Device.fromData (data : Json) (api : AmbientikaApi) :
    Except PyExn Device := do
  let i ← getItem data "id"
  let dt ← getItem data "deviceType"
  let sn ← getItem data "serialNumber"
  let uid ← getItem data "userId"
  let nm ← getItem data "name"
  let rl ← getItem data "role"
  let zi ← getItem data "zoneIndex"
  let inst ← getItem data "installation"
  let rid ← getItem data "roomId"
  return ⟨i, dt, sn, uid, nm, rl, zi, inst, rid, api⟩

/-- A `Room` (lines 197-216). -/
structure Room where
  id : Json
  name : Json
  house_id : Json
  user_id : Json
  devices : List Device
  api : AmbientikaApi
deriving Repr

/-- Embeds `Room.__init__` (lines 208-216): copy fields and construct the owned
devices from the nested JSON list. -/
def Room.fromData (data : Json) (api : AmbientikaApi) :
    Except PyExn Room := do
  let i ← getItem data "id"
  let nm ← getItem data "name"
  let hid ← getItem data "houseId"
  let uid ← getItem data "userId"
  let devicesJson ← toIter (← getItem data "devices")
  let devices ← mapExcept (fun d => Device.fromData d api) devicesJson
  return ⟨i, nm, hid, uid, devices, api⟩

/-- A `House` (lines 219-246). `House.__init__` never assigns `self.api`,
so the structure has no api field; the api is only threaded into the owned
rooms. -/
structure House where
  user_id : Json
  id : Json
  name : Json
  zones : Json
  rooms : List Room
  has_zones : Json
  has_devices : Json
  address : Json
  latitude : Json
  longitude : Json
deriving Repr

/-- Embeds `House.__init__` (lines 235-246), in the source's field order. -/
def House.fromData (data : Json) (api : AmbientikaApi) :
    Except PyExn House := do
  let uid ← getItem data "userId"
  let i ← getItem data "id"
  let nm ← getItem data "name"
  let zs ← getItem data "zones"
  let roomsJson ← toIter (← getItem data "rooms")
  let rooms ← mapExcept (fun r => Room.fromData r api) roomsJson
  let hz ← getItem data "hasZones"
  let hd ← getItem data "hasDevices"
  let ad ← getItem data "address"
  let lat ← getItem data "latitude"
  let lon ← getItem data "longitude"
  return ⟨uid, i, nm, zs, rooms, hz, hd, ad, lat, lon⟩

/-- The `Success(...)` pattern of a Python `match`: the payload when the
result is a `Success`, else no match. -/
def successValue {α ε : Type} : Result α ε → Option α
  | .Success v => some v
  | .Failure _ => none

/-- The `Failure(...)` pattern of a Python `match`. -/
def failureValue {α ε : Type} : Result α ε → Option ε
  | .Failure e => some e
  | .Success _ => none

/-- The method `value_or` from the `returns` library: the `Success` payload, or
the given default on `Failure`. The client always calls it with `None`. -/
def Result.valueOr {α ε : Type} (r : Result α ε) (dflt : Option α) :
    Option α :=
  match r with
  | .Success v => some v
  | .Failure _ => dflt

/-- The three-armed `match` statement used in `status`,
`house_complete_info` and `houses`: try the `Success` pattern, then the
`Failure` pattern, and fall through to `raise NotImplementedError`. -/
def matchHttpResult {α β : Type} (res : Result α HttpError)
    (onSucc : α → Except PyExn β) (onFail : HttpError → Except PyExn β) :
    Except PyExn β :=
  match successValue res with
  | some v => onSucc v
  | none =>
    match failureValue res with
    | some e => onFail e
    | none => .error .notImplementedError

/-- Named `parseDeviceStatus` in the spec: the body of the `Success` arm of `Device.status`
(lines 163-180), building the `DeviceStatus` dict in source order. Each
subscript may raise `KeyError`, as may each enum lookup. -/
def parseDeviceStatus (data : Json) : Except PyExn DeviceStatus := do
  let om ← OperatingMode.fromWire (← getItem data "operatingMode")
  let fs ← FanSpeed.fromWire (← getItem data "fanSpeed")
  let hl ← HumidityLevel.fromWire (← getItem data "humidityLevel")
  let temp ← getItem data "temperature"
  let hum ← getItem data "humidity"
  let aq ← getItem data "airQuality"
  let ha ← getItem data "humidityAlarm"
  let filt ← getItem data "filtersStatus"
  let na ← getItem data "nightAlarm"
  let dr ← getItem data "deviceRole"
  let lom ← OperatingMode.fromWire (← getItem data "lastOperatingMode")
  let pt ← getItem data "packetType"
  let dt ← getItem data "deviceType"
  let dsn ← getItem data "deviceSerialNumber"
  return ⟨om, fs, hl, temp, hum, aq, ha, filt, na, dr, lom, pt, dt, dsn⟩

/-- The `match` statement of `Device.status` (lines 161-184). -/
def Device.statusFromResult (res : Result Json HttpError) :
    Except PyExn (Result DeviceStatus HttpError) :=
  matchHttpResult res
    (fun data => do return .Success (← parseDeviceStatus data))
    (fun error => .ok (.Failure error))

/-- Embeds `Device.status` (lines 156-184): GET `device/device-status` with the
device's serial number, then parse. The GET is pure, so writing it twice
(once for the result, once for the trace) denotes the single Python call. -/
def Device.status (d : Device) (oracle : Oracle) :
    Except PyExn (Result DeviceStatus HttpError) × List HttpRequest :=
  (Device.statusFromResult
    (d.api.get "device/device-status"
      [("deviceSerialNumber", d.serial_number)] oracle).1,
   (d.api.get "device/device-status"
      [("deviceSerialNumber", d.serial_number)] oracle).2)

/-- The wire body `Device.change_mode` builds (lines 188-193):
`operatingMode` as the decimal string of the ordinal, `fanSpeed` and
`humidityLevel` as bare ordinals. -/
def Device.changeModeBody (d : Device) (mode : DeviceMode) : Json :=
  .obj [("deviceSerialNumber", d.serial_number),
        ("operatingMode", .str (toString mode.operating_mode.val)),
        ("fanSpeed", .num mode.fan_speed.val),
        ("humidityLevel", .num mode.humidity_level.val)]

/-- Embeds `Device.change_mode` (lines 186-194): POST `device/change-mode` with
the encoded body. -/
def Device.change_mode (d : Device) (mode : DeviceMode) (oracle : Oracle) :
    Result Unit HttpError × List HttpRequest :=
  d.api.post "device/change-mode" (d.changeModeBody mode) oracle

/-- The `Ambientika` facade (lines 249-256), wrapping the authenticated
connection (Python attribute `_api`, renamed `api` here). -/
structure Ambientika where
  api : AmbientikaApi
deriving Repr

/-- Embeds `Ambientika.house_complete_info` (lines 258-267): GET
`house/house-complete-info?houseId=...` and build the `House` tree. The
`house_id` is passed verbatim into the query parameters; the pure GET is
written twice to denote the single Python call. -/
def Ambientika.house_complete_info (amb : Ambientika) (house_id : Json)
    (oracle : Oracle) :
    Except PyExn (Result House HttpError) × List HttpRequest :=
  (matchHttpResult
    (amb.api.get "house/house-complete-info" [("houseId", house_id)] oracle).1
    (fun house_data => do return .Success (← House.fromData house_data amb.api))
    (fun error => .ok (.Failure error)),
   (amb.api.get "house/house-complete-info" [("houseId", house_id)] oracle).2)

/-- The tail of `fetch_house`: an exception from the awaited call
propagates; a returned result is collapsed with `value_or(None)`, so a
per-house `Failure` becomes `None`. -/
def fetchHouseResult (res : Except PyExn (Result House HttpError)) :
    Except PyExn (Option House) :=
  match res with
  | .error e => .error e
  | .ok r => .ok (r.valueOr none)

/-- The inner `fetch_house` of `houses` (lines 273-276): look up `houseId`
(possibly raising `KeyError`), fetch the complete info, and collapse the
result with `value_or(None)`. -/
def Ambientika.fetchHouse (amb : Ambientika) (house : Json)
    (oracle : Oracle) : Except PyExn (Option House) × List HttpRequest :=
  match getItem house "houseId" with
  | .error e => (.error e, [])
  | .ok hid =>
    (fetchHouseResult (amb.house_complete_info hid oracle).1,
     (amb.house_complete_info hid oracle).2)

/-- Prepending one comprehension element: an exception from the remaining
elements propagates. -/
def combineRest (oh : Option House)
    (rest : Except PyExn (List (Option House))) :
    Except PyExn (List (Option House)) :=
  match rest with
  | .error e => .error e
  | .ok ohs => .ok (oh :: ohs)

/-- The comprehension `[await fetch_house(house) for house in houses]`:
left-to-right, each house fetched even after earlier failures (which are
already `None`s); a raised exception aborts, so the trace of an aborted
run stops at the raising call. -/
def Ambientika.fetchHousesList (amb : Ambientika) (stubs : List Json)
    (oracle : Oracle) :
    Except PyExn (List (Option House)) × List HttpRequest :=
  match stubs with
  | [] => (.ok [], [])
  | h :: rest =>
    match (amb.fetchHouse h oracle).1 with
    | .error e => (.error e, (amb.fetchHouse h oracle).2)
    | .ok oh =>
      (combineRest oh (amb.fetchHousesList rest oracle).1,
       (amb.fetchHouse h oracle).2 ++ (amb.fetchHousesList rest oracle).2)

/-- The tail of the `Success` arm of `houses`: keep the non-`None`
results (`[x for x in ... if x is not None]`); an exception from the
comprehension propagates. -/
def housesResult (res : Except PyExn (List (Option House))) :
    Except PyExn (Result (List House) HttpError) :=
  match res with
  | .error e => .error e
  | .ok ohs => .ok (.Success (ohs.filterMap (fun x => x)))

/-- Embeds `Ambientika.houses` (lines 269-284): GET `house/houses-info`; on
`Success`, iterate the listing, fetch every listed house and keep only the
non-`None` results; on `Failure`, return it; otherwise the fallback arm
raises `NotImplementedError`. The pure GET is written once per projection
to denote the single Python call. -/
def Ambientika.houses (amb : Ambientika) (oracle : Oracle) :
    Except PyExn (Result (List House) HttpError) × List HttpRequest :=
  match successValue (amb.api.get "house/houses-info" [] oracle).1 with
  | some housesJson =>
    (match toIter housesJson with
     | .error e => (.error e, (amb.api.get "house/houses-info" [] oracle).2)
     | .ok stubs =>
       (housesResult (amb.fetchHousesList stubs oracle).1,
        (amb.api.get "house/houses-info" [] oracle).2
          ++ (amb.fetchHousesList stubs oracle).2))
  | none =>
    match failureValue (amb.api.get "house/houses-info" [] oracle).1 with
    | some e => (.ok (.Failure e), (amb.api.get "house/houses-info" [] oracle).2)
    | none =>
      (.error .notImplementedError,
       (amb.api.get "house/houses-info" [] oracle).2)

/-- The unauthenticated request `authenticate` issues (lines 291-294):
POST `users/authenticate` with `{username, password}` and no headers. -/
def authRequest (username password host : String) : HttpRequest :=
  { method := "POST"
    url := host ++ "/users/authenticate"
    headers := []
    params := []
    jsonBody := some (.obj [("username", .str username),
                            ("password", .str password)]) }

/-- The Python annotation `token: str`: the wire `jwtToken` is a JSON
string; the embedding enforces the declared string shape at this
construction boundary. -/
def asTokenString (j : Json) : Except PyExn String :=
  match j with
  | .str s => .ok s
  | _ => .error (.typeError "token is not a string")

/-- Embeds `authenticate` (lines 287-308): POST the credentials without a bearer
header; on 200 extract `id` and `jwtToken` and build the facade, on any
other status return the same `HttpError` shape as the transport. The
Python default host is `https://app.ambientika.eu:4521`. -/
def authenticate (username password host : String) (oracle : Oracle) :
    Except PyExn (Result Ambientika HttpError) × List HttpRequest :=
  let req := authRequest username password host
  let resp := oracle req
  if resp.status == 200 then
    ((do
        let i ← getItem resp.body "id"
        let t ← asTokenString (← getItem resp.body "jwtToken")
        return Result.Success (Ambientika.mk ⟨host, i, t⟩)), [req])
  else
    (.ok (.Failure ⟨resp.status, errorData resp⟩), [req])

/-- C2: for every HTTP response, `get` returns `Success` of the parsed
JSON body, and `post` returns `Success` of unit, exactly when the response
status is 200; any other status yields `Failure` carrying the status code
and, as `data`, the parsed JSON body if the lowercased content type is
exactly `application/json` and `none` otherwise. -/
theorem c2_transport_result_classification :
    (∀ (api : AmbientikaApi) (path : String) (params : List (String × Json))
        (oracle : Oracle),
      ((api.get path params oracle).1
          = .Success (oracle (api.getRequest path params)).body
        ↔ (oracle (api.getRequest path params)).status = 200))
    ∧ (∀ (api : AmbientikaApi) (path : String) (params : List (String × Json))
        (oracle : Oracle),
      (oracle (api.getRequest path params)).status ≠ 200 →
      (api.get path params oracle).1
        = .Failure ⟨(oracle (api.getRequest path params)).status,
            if pyLower ((oracle (api.getRequest path params)).contentType.getD "")
                = "application/json"
            then some (oracle (api.getRequest path params)).body
            else none⟩)
    ∧ (∀ (api : AmbientikaApi) (path : String) (body : Json) (oracle : Oracle),
      ((api.post path body oracle).1 = .Success ()
        ↔ (oracle (api.postRequest path body)).status = 200))
    ∧ (∀ (api : AmbientikaApi) (path : String) (body : Json) (oracle : Oracle),
      (oracle (api.postRequest path body)).status ≠ 200 →
      (api.post path body oracle).1
        = .Failure ⟨(oracle (api.postRequest path body)).status,
            if pyLower ((oracle (api.postRequest path body)).contentType.getD "")
                = "application/json"
            then some (oracle (api.postRequest path body)).body
            else none⟩) := by
  refine ⟨?_, ?_, ?_, ?_⟩
  · intro api path params oracle
    simp only [AmbientikaApi.get, interpretGetResponse]
    by_cases h : (oracle (api.getRequest path params)).status = 200
    · simp [h]
    · simp [h]
  · intro api path params oracle h
    simp [AmbientikaApi.get, interpretGetResponse, errorData, h]
  · intro api path body oracle
    simp only [AmbientikaApi.post, interpretPostResponse]
    by_cases h : (oracle (api.postRequest path body)).status = 200
    · simp [h]
    · simp [h]
  · intro api path body oracle h
    simp [AmbientikaApi.post, interpretPostResponse, errorData, h]

/-- Witness for C2: a 404 `text/plain` response yields a `Failure` with
`data = none`, and a 200 JSON response yields `Success` of the body. -/
theorem c2_transport_result_classification_witness :
    ((AmbientikaApi.mk "https://h" .null "tok").get "p" []
        (fun _ => ⟨404, some "text/plain", .null⟩)).1
      = .Failure ⟨404, none⟩
    ∧ ((AmbientikaApi.mk "https://h" .null "tok").get "p" []
        (fun _ => ⟨200, some "application/json", .num 5⟩)).1
      = .Success (.num 5) := by
  constructor
  · have h := c2_transport_result_classification.2.1
      (AmbientikaApi.mk "https://h" .null "tok") "p" []
      (fun _ => ⟨404, some "text/plain", .null⟩) (by decide)
    rw [if_neg (by decide)] at h
    exact h
  · exact (c2_transport_result_classification.1
      (AmbientikaApi.mk "https://h" .null "tok") "p" []
      (fun _ => ⟨200, some "application/json", .num 5⟩)).mpr rfl

/-- C9: for a non-200 response the `data` field of the resulting `Failure`
is populated (with the parsed body) exactly when the lowercased
`Content-Type` header is the exact string `application/json`; a content
type with parameters such as `application/json; charset=utf-8`, or an
absent header, yields `data = none` whatever the body is. -/
theorem c9_content_type_gate :
    (∀ resp : HttpResponse, resp.status ≠ 200 →
      ((interpretGetResponse resp = .Failure ⟨resp.status, some resp.body⟩
          ↔ pyLower (resp.contentType.getD "") = "application/json")
       ∧ (interpretPostResponse resp = .Failure ⟨resp.status, some resp.body⟩
          ↔ pyLower (resp.contentType.getD "") = "application/json")))
    ∧ (∀ (st : Nat) (body : Json), st ≠ 200 →
        interpretGetResponse ⟨st, some "application/json; charset=utf-8", body⟩
          = .Failure ⟨st, none⟩
        ∧ interpretPostResponse ⟨st, some "application/json; charset=utf-8", body⟩
          = .Failure ⟨st, none⟩)
    ∧ (∀ (st : Nat) (body : Json), st ≠ 200 →
        interpretGetResponse ⟨st, none, body⟩ = .Failure ⟨st, none⟩
        ∧ interpretPostResponse ⟨st, none, body⟩ = .Failure ⟨st, none⟩) := by
  refine ⟨?_, ?_, ?_⟩
  · intro resp h
    constructor
    · by_cases hc : pyLower (resp.contentType.getD "") = "application/json"
      · simp [interpretGetResponse, errorData, h, hc]
      · simp [interpretGetResponse, errorData, h, hc]
    · by_cases hc : pyLower (resp.contentType.getD "") = "application/json"
      · simp [interpretPostResponse, errorData, h, hc]
      · simp [interpretPostResponse, errorData, h, hc]
  · intro st body h
    constructor
    · simp [interpretGetResponse, errorData, h,
        show (pyLower "application/json; charset=utf-8"
          == "application/json") = false from rfl]
    · simp [interpretPostResponse, errorData, h,
        show (pyLower "application/json; charset=utf-8"
          == "application/json") = false from rfl]
  · intro st body h
    constructor
    · simp [interpretGetResponse, errorData, h, show pyLower "" ≠ "application/json" from by decide]
    · simp [interpretPostResponse, errorData, h, show pyLower "" ≠ "application/json" from by decide]

/-- Witness for C9: a 500 response whose content type carries a charset
parameter, and a 401 response with no content type, both yield
`data = none`; a 401 with an uppercase `Application/JSON` header yields
the body. -/
theorem c9_content_type_gate_witness :
    interpretGetResponse ⟨500, some "application/json; charset=utf-8", .num 1⟩
      = .Failure ⟨500, none⟩
    ∧ interpretGetResponse ⟨401, none, .num 2⟩ = .Failure ⟨401, none⟩
    ∧ interpretGetResponse ⟨401, some "Application/JSON", .num 3⟩
      = .Failure ⟨401, some (.num 3)⟩ := by
  refine ⟨(c9_content_type_gate.2.1 500 (.num 1) (by decide)).1,
    (c9_content_type_gate.2.2 401 (.num 2) (by decide)).1, ?_⟩
  exact ((c9_content_type_gate.1 ⟨401, some "Application/JSON", .num 3⟩
    (by decide)).1).mpr (by decide)

/-- Every operating-mode ordinal is at least 0. -/
theorem operatingMode_val_nonneg (m : OperatingMode) : 0 ≤ m.val := by
  cases m <;> decide

/-- Every operating-mode ordinal is at most 11. -/
theorem operatingMode_val_le (m : OperatingMode) : m.val ≤ 11 := by
  cases m <;> decide

/-- Every fan-speed ordinal is at least 0. -/
theorem fanSpeed_val_nonneg (m : FanSpeed) : 0 ≤ m.val := by
  cases m <;> decide

/-- Every fan-speed ordinal is at most 2. -/
theorem fanSpeed_val_le (m : FanSpeed) : m.val ≤ 2 := by
  cases m <;> decide

/-- Every humidity-level ordinal is at least 0. -/
theorem humidityLevel_val_nonneg (m : HumidityLevel) : 0 ≤ m.val := by
  cases m <;> decide

/-- Every humidity-level ordinal is at most 2. -/
theorem humidityLevel_val_le (m : HumidityLevel) : m.val ≤ 2 := by
  cases m <;> decide

/-- C4: for every `DeviceMode`, `change_mode` sends exactly one POST to
`device/change-mode` whose body is
`{deviceSerialNumber, operatingMode: str(ordinal), fanSpeed: ordinal,
humidityLevel: ordinal}`, with the operating-mode ordinal in 0-11 and the
fan-speed and humidity-level ordinals in 0-2. -/
theorem c4_change_mode_wire_body :
    ∀ (d : Device) (mode : DeviceMode) (oracle : Oracle),
      (d.change_mode mode oracle).2
        = [{ method := "POST"
             url := d.api.host ++ "/device/change-mode"
             headers := [("Authorization", "Bearer " ++ d.api.token)]
             params := []
             jsonBody := some (.obj
               [("deviceSerialNumber", d.serial_number),
                ("operatingMode", .str (toString mode.operating_mode.val)),
                ("fanSpeed", .num mode.fan_speed.val),
                ("humidityLevel", .num mode.humidity_level.val)]) }]
      ∧ (0 ≤ mode.operating_mode.val ∧ mode.operating_mode.val ≤ 11)
      ∧ (0 ≤ mode.fan_speed.val ∧ mode.fan_speed.val ≤ 2)
      ∧ (0 ≤ mode.humidity_level.val ∧ mode.humidity_level.val ≤ 2) := by
  intro d mode oracle
  refine ⟨?_, ⟨operatingMode_val_nonneg mode.operating_mode,
      operatingMode_val_le mode.operating_mode⟩,
    ⟨fanSpeed_val_nonneg mode.fan_speed, fanSpeed_val_le mode.fan_speed⟩,
    ⟨humidityLevel_val_nonneg mode.humidity_level,
      humidityLevel_val_le mode.humidity_level⟩⟩
  simp only [Device.change_mode, AmbientikaApi.post, AmbientikaApi.postRequest,
    Device.changeModeBody, AmbientikaApi.bearerHeaders]
  rw [String.append_assoc]
  rfl

/-- C7: the success branch of `status` is a pure function of the wire
JSON: on the fixture with `operatingMode "Night"`, `fanSpeed "Low"`,
`humidityLevel "Dry"`, temperature 21 and humidity 55, it produces exactly
the corresponding `DeviceStatus`, every remaining field copied verbatim
from its camelCase wire key, whatever those values are. -/
theorem c7_parse_device_status_fixture :
    ∀ (aq ha filt na dr pt dt dsn : Json) (lom : OperatingMode),
      Device.statusFromResult (.Success (.obj
        [("operatingMode", .str "Night"), ("fanSpeed", .str "Low"),
         ("humidityLevel", .str "Dry"), ("temperature", .num 21),
         ("humidity", .num 55), ("airQuality", aq), ("humidityAlarm", ha),
         ("filtersStatus", filt), ("nightAlarm", na), ("deviceRole", dr),
         ("lastOperatingMode", .str lom.pyName), ("packetType", pt),
         ("deviceType", dt), ("deviceSerialNumber", dsn)]))
      = .ok (.Success ⟨.Night, .Low, .Dry, .num 21, .num 55, aq, ha, filt,
          na, dr, lom, pt, dt, dsn⟩) := by
  intro aq ha filt na dr pt dt dsn lom
  cases lom <;> rfl

/-- C5: `authenticate` issues exactly one POST of `{username, password}`
to `users/authenticate` with no headers (so no bearer header); on a 200
response whose body carries `id` and a string `jwtToken` it returns
`Success` of the facade built from `(host, id, jwtToken)`; on any other
status it returns (without raising) `Failure` of the status code together
with the body if the lowercased content type is `application/json` and
`none` otherwise. -/
theorem c5_authenticate_contract :
    ∀ (username password host : String) (oracle : Oracle),
      (authenticate username password host oracle).2
        = [authRequest username password host]
      ∧ (authRequest username password host).method = "POST"
      ∧ (authRequest username password host).url = host ++ "/users/authenticate"
      ∧ (authRequest username password host).headers = []
      ∧ (authRequest username password host).jsonBody
          = some (.obj [("username", .str username), ("password", .str password)])
      ∧ (∀ (i : Json) (t : String),
          (oracle (authRequest username password host)).status = 200 →
          getItem (oracle (authRequest username password host)).body "id" = .ok i →
          getItem (oracle (authRequest username password host)).body "jwtToken"
            = .ok (.str t) →
          (authenticate username password host oracle).1
            = .ok (.Success ⟨⟨host, i, t⟩⟩))
      ∧ ((oracle (authRequest username password host)).status ≠ 200 →
          (authenticate username password host oracle).1
            = .ok (.Failure
                ⟨(oracle (authRequest username password host)).status,
                 if pyLower ((oracle (authRequest username password host)).contentType.getD "")
                     = "application/json"
                 then some (oracle (authRequest username password host)).body
                 else none⟩)) := by
  intro username password host oracle
  refine ⟨?_, rfl, rfl, rfl, rfl, ?_, ?_⟩
  · simp only [authenticate]
    split <;> rfl
  · intro i t h200 hid htok
    simp [authenticate, h200, hid, htok, asTokenString, Bind.bind, Except.bind,
      Functor.map, Except.map, Pure.pure, Except.pure]
  · intro hne
    simp [authenticate, hne, errorData]

/-- Witness for C5: authenticating against a server answering 403 with no
JSON content type yields `Failure {403, none}`, and against a 200 body
with `id` and `jwtToken` yields `Success` of the facade. -/
theorem c5_authenticate_contract_witness :
    (authenticate "user" "wrongpass" "https://h"
        (fun _ => ⟨403, none, .null⟩)).1
      = .ok (.Failure ⟨403, none⟩)
    ∧ (authenticate "user" "pass" "https://h"
        (fun _ => ⟨200, some "application/json",
          .obj [("id", .num 9), ("jwtToken", .str "tok")]⟩)).1
      = .ok (.Success ⟨⟨"https://h", .num 9, "tok"⟩⟩) := by
  constructor
  · have h := (c5_authenticate_contract "user" "wrongpass" "https://h"
      (fun _ => ⟨403, none, .null⟩)).2.2.2.2.2.2 (by decide)
    rw [if_neg (by decide)] at h
    exact h
  · exact (c5_authenticate_contract "user" "pass" "https://h"
      (fun _ => ⟨200, some "application/json",
        .obj [("id", .num 9), ("jwtToken", .str "tok")]⟩)).2.2.2.2.2.1
      (.num 9) "tok" rfl rfl rfl

/-- C6: when the outer `house/houses-info` listing fails, `houses` returns
that same `Failure` and its request trace is exactly the single listing
request: no `house-complete-info` call is issued. -/
theorem c6_houses_outer_failure_short_circuit :
    ∀ (amb : Ambientika) (oracle : Oracle) (e : HttpError),
      interpretGetResponse (oracle (amb.api.getRequest "house/houses-info" []))
        = .Failure e →
      amb.houses oracle
        = (.ok (.Failure e), [amb.api.getRequest "house/houses-info" []]) := by
  intro amb oracle e h
  simp [Ambientika.houses, AmbientikaApi.get, h, successValue, failureValue]

/-- Witness for C6: a listing endpoint answering 500 makes `houses` return
`Failure {500, none}` after exactly one request. -/
theorem c6_houses_outer_failure_short_circuit_witness :
    (Ambientika.mk ⟨"https://h", .null, "tok"⟩).houses
        (fun _ => ⟨500, none, .null⟩)
      = (.ok (.Failure ⟨500, none⟩),
         [⟨"GET", "https://h/house/houses-info",
           [("Authorization", "Bearer tok")], [], none⟩]) := by
  exact c6_houses_outer_failure_short_circuit
    (Ambientika.mk ⟨"https://h", .null, "tok"⟩)
    (fun _ => ⟨500, none, .null⟩) ⟨500, none⟩ rfl

/-- Binding cannot introduce `NotImplementedError` if neither side can. -/
theorem bind_ne_nie {α β : Type} (x : Except PyExn α) (f : α → Except PyExn β)
    (hx : x ≠ Except.error PyExn.notImplementedError)
    (hf : ∀ a, f a ≠ Except.error PyExn.notImplementedError) :
    x >>= f ≠ Except.error PyExn.notImplementedError := by
  cases x with
  | error e =>
    intro h
    have he : e = PyExn.notImplementedError := Except.error.inj h
    exact hx (by rw [he])
  | ok a => intro h; exact hf a h

/-- Mapping cannot introduce `NotImplementedError`. -/
theorem map_ne_nie {α β : Type} (f : α → β) (x : Except PyExn α)
    (hx : x ≠ Except.error PyExn.notImplementedError) :
    (f <$> x) ≠ Except.error PyExn.notImplementedError := by
  cases x with
  | error e =>
    intro h
    have he : e = PyExn.notImplementedError := Except.error.inj h
    exact hx (by rw [he])
  | ok a => intro h; exact Except.noConfusion h

/-- Subscripting raises only `KeyError` or `TypeError`. -/
theorem getItem_ne_nie (data : Json) (key : String) :
    getItem data key ≠ Except.error PyExn.notImplementedError := by
  cases data with
  | obj fields => cases h : List.lookup key fields <;> simp [getItem, h]
  | null => simp [getItem]
  | bool b => simp [getItem]
  | num n => simp [getItem]
  | str s => simp [getItem]
  | arr xs => simp [getItem]

/-- Iteration raises only `TypeError`. -/
theorem toIter_ne_nie (j : Json) :
    toIter j ≠ Except.error PyExn.notImplementedError := by
  cases j <;> simp [toIter]

/-- Operating-mode lookup raises only `KeyError`. -/
theorem operatingMode_fromWire_ne_nie (j : Json) :
    OperatingMode.fromWire j ≠ Except.error PyExn.notImplementedError := by
  cases j with
  | str s => cases h : OperatingMode.fromName s <;> simp [OperatingMode.fromWire, h]
  | null => simp [OperatingMode.fromWire]
  | bool b => simp [OperatingMode.fromWire]
  | num n => simp [OperatingMode.fromWire]
  | arr xs => simp [OperatingMode.fromWire]
  | obj fs => simp [OperatingMode.fromWire]

/-- Fan-speed lookup raises only `KeyError`. -/
theorem fanSpeed_fromWire_ne_nie (j : Json) :
    FanSpeed.fromWire j ≠ Except.error PyExn.notImplementedError := by
  cases j with
  | str s => cases h : FanSpeed.fromName s <;> simp [FanSpeed.fromWire, h]
  | null => simp [FanSpeed.fromWire]
  | bool b => simp [FanSpeed.fromWire]
  | num n => simp [FanSpeed.fromWire]
  | arr xs => simp [FanSpeed.fromWire]
  | obj fs => simp [FanSpeed.fromWire]

/-- Humidity-level lookup raises only `KeyError`. -/
theorem humidityLevel_fromWire_ne_nie (j : Json) :
    HumidityLevel.fromWire j ≠ Except.error PyExn.notImplementedError := by
  cases j with
  | str s => cases h : HumidityLevel.fromName s <;> simp [HumidityLevel.fromWire, h]
  | null => simp [HumidityLevel.fromWire]
  | bool b => simp [HumidityLevel.fromWire]
  | num n => simp [HumidityLevel.fromWire]
  | arr xs => simp [HumidityLevel.fromWire]
  | obj fs => simp [HumidityLevel.fromWire]

/-- A comprehension over exception-free element parsers is free of
`NotImplementedError`. -/
theorem mapExcept_ne_nie {β : Type} (f : Json → Except PyExn β)
    (hf : ∀ x, f x ≠ Except.error PyExn.notImplementedError) :
    ∀ xs, mapExcept f xs ≠ Except.error PyExn.notImplementedError := by
  intro xs
  induction xs with
  | nil => simp [mapExcept]
  | cons x xs ih =>
    show (f x >>= fun y => (fun ys => y :: ys) <$> mapExcept f xs)
        ≠ Except.error PyExn.notImplementedError
    exact bind_ne_nie _ _ (hf x) (fun y => map_ne_nie _ _ ih)

/-- Device construction raises only `KeyError` or `TypeError`. -/
theorem device_fromData_ne_nie (data : Json) (api : AmbientikaApi) :
    Device.fromData data api ≠ Except.error PyExn.notImplementedError := by
  unfold Device.fromData
  repeat' first
    | exact map_ne_nie _ _ (getItem_ne_nie _ _)
    | refine bind_ne_nie _ _ (getItem_ne_nie _ _) (fun a => ?_)

/-- Room construction raises only `KeyError` or `TypeError`. -/
theorem room_fromData_ne_nie (data : Json) (api : AmbientikaApi) :
    Room.fromData data api ≠ Except.error PyExn.notImplementedError := by
  unfold Room.fromData
  repeat' first
    | exact map_ne_nie _ _
        (mapExcept_ne_nie _ (fun x => device_fromData_ne_nie x api) _)
    | refine bind_ne_nie _ _ (getItem_ne_nie _ _) (fun a => ?_)
    | refine bind_ne_nie _ _ (toIter_ne_nie _) (fun a => ?_)

/-- House construction raises only `KeyError` or `TypeError`. -/
theorem house_fromData_ne_nie (data : Json) (api : AmbientikaApi) :
    House.fromData data api ≠ Except.error PyExn.notImplementedError := by
  unfold House.fromData
  repeat' first
    | exact map_ne_nie _ _ (getItem_ne_nie _ _)
    | refine bind_ne_nie _ _ (getItem_ne_nie _ _) (fun a => ?_)
    | refine bind_ne_nie _ _ (toIter_ne_nie _) (fun a => ?_)
    | refine bind_ne_nie _ _
        (mapExcept_ne_nie _ (fun x => room_fromData_ne_nie x api) _)
        (fun a => ?_)

/-- Status parsing raises only `KeyError` or `TypeError`. -/
theorem parseDeviceStatus_ne_nie (data : Json) :
    parseDeviceStatus data ≠ Except.error PyExn.notImplementedError := by
  unfold parseDeviceStatus
  repeat' first
    | exact map_ne_nie _ _ (getItem_ne_nie _ _)
    | refine bind_ne_nie _ _ (getItem_ne_nie _ _) (fun a => ?_)
    | refine bind_ne_nie _ _ (operatingMode_fromWire_ne_nie _) (fun a => ?_)
    | refine bind_ne_nie _ _ (fanSpeed_fromWire_ne_nie _) (fun a => ?_)
    | refine bind_ne_nie _ _ (humidityLevel_fromWire_ne_nie _) (fun a => ?_)

/-- The fallback arm of the Python three-armed `match` is reached only if
both the `Success` and the `Failure` patterns fail, which no `Result`
value can cause as long as the two taken arms cannot raise it. -/
theorem matchHttpResult_ne_nie {α β : Type} (res : Result α HttpError)
    (f : α → Except PyExn β) (g : HttpError → Except PyExn β)
    (hf : ∀ v, f v ≠ Except.error PyExn.notImplementedError)
    (hg : ∀ e, g e ≠ Except.error PyExn.notImplementedError) :
    matchHttpResult res f g ≠ Except.error PyExn.notImplementedError := by
  cases res with
  | Success v => simpa [matchHttpResult, successValue] using hf v
  | Failure e => simpa [matchHttpResult, successValue, failureValue] using hg e

/-- The `match` of `Device.status` never reaches its fallback arm. -/
theorem Device.statusFromResult_ne_nie (res : Result Json HttpError) :
    Device.statusFromResult res ≠ Except.error PyExn.notImplementedError := by
  unfold Device.statusFromResult
  refine matchHttpResult_ne_nie _ _ _ (fun v => ?_) (fun e => by simp)
  exact map_ne_nie _ _ (parseDeviceStatus_ne_nie v)

/-- The `match` of `house_complete_info` never reaches its fallback arm. -/
theorem Ambientika.house_complete_info_ne_nie (amb : Ambientika)
    (house_id : Json) (oracle : Oracle) :
    (amb.house_complete_info house_id oracle).1
      ≠ Except.error PyExn.notImplementedError := by
  show matchHttpResult _ _ _ ≠ Except.error PyExn.notImplementedError
  refine matchHttpResult_ne_nie _ _ _ (fun v => ?_) (fun e => by simp)
  exact map_ne_nie _ _ (house_fromData_ne_nie v amb.api)

/-- Collapsing a fetch result with `value_or` cannot introduce
`NotImplementedError`. -/
theorem fetchHouseResult_ne_nie (res : Except PyExn (Result House HttpError))
    (h : res ≠ Except.error PyExn.notImplementedError) :
    fetchHouseResult res ≠ Except.error PyExn.notImplementedError := by
  cases res with
  | error e =>
    intro hc
    have he : e = PyExn.notImplementedError := Except.error.inj hc
    exact h (by rw [he])
  | ok r => intro hc; exact Except.noConfusion hc

/-- Prepending a comprehension element cannot introduce
`NotImplementedError`. -/
theorem combineRest_ne_nie (oh : Option House)
    (rest : Except PyExn (List (Option House)))
    (h : rest ≠ Except.error PyExn.notImplementedError) :
    combineRest oh rest ≠ Except.error PyExn.notImplementedError := by
  cases rest with
  | error e =>
    intro hc
    have he : e = PyExn.notImplementedError := Except.error.inj hc
    exact h (by rw [he])
  | ok ohs => intro hc; exact Except.noConfusion hc

/-- Filtering the comprehension cannot introduce `NotImplementedError`. -/
theorem housesResult_ne_nie (res : Except PyExn (List (Option House)))
    (h : res ≠ Except.error PyExn.notImplementedError) :
    housesResult res ≠ Except.error PyExn.notImplementedError := by
  cases res with
  | error e =>
    intro hc
    have he : e = PyExn.notImplementedError := Except.error.inj hc
    exact h (by rw [he])
  | ok ohs => intro hc; exact Except.noConfusion hc

/-- A result matching neither `Success` nor `Failure` does not exist. -/
theorem failureValue_of_successValue_none {α ε : Type} {res : Result α ε}
    (h : successValue res = none) : ∃ e, failureValue res = some e := by
  cases res with
  | Success v => exact absurd h (by simp [successValue])
  | Failure e => exact ⟨e, rfl⟩

/-- Fetching one house never raises `NotImplementedError`. -/
theorem Ambientika.fetchHouse_ne_nie (amb : Ambientika) (house : Json)
    (oracle : Oracle) :
    (amb.fetchHouse house oracle).1
      ≠ Except.error PyExn.notImplementedError := by
  unfold Ambientika.fetchHouse
  cases hg : getItem house "houseId" with
  | error e =>
    intro hc
    have he : e = PyExn.notImplementedError := Except.error.inj hc
    exact getItem_ne_nie house "houseId" (by rw [hg, he])
  | ok hid =>
    exact fetchHouseResult_ne_nie _ (amb.house_complete_info_ne_nie hid oracle)

/-- Fetching the listed houses never raises `NotImplementedError`. -/
theorem Ambientika.fetchHousesList_ne_nie (amb : Ambientika)
    (stubs : List Json) (oracle : Oracle) :
    (amb.fetchHousesList stubs oracle).1
      ≠ Except.error PyExn.notImplementedError := by
  induction stubs with
  | nil => simp [Ambientika.fetchHousesList]
  | cons h rest ih =>
    unfold Ambientika.fetchHousesList
    cases hp : (amb.fetchHouse h oracle).1 with
    | error e =>
      intro hc
      have he : e = PyExn.notImplementedError := Except.error.inj hc
      exact amb.fetchHouse_ne_nie h oracle (by rw [hp, he])
    | ok oh =>
      exact combineRest_ne_nie oh _ ih

/-- The `match` of `houses` never reaches its fallback arm. -/
theorem Ambientika.houses_ne_nie (amb : Ambientika) (oracle : Oracle) :
    (amb.houses oracle).1 ≠ Except.error PyExn.notImplementedError := by
  unfold Ambientika.houses
  cases hs : successValue (amb.api.get "house/houses-info" [] oracle).1 with
  | some v =>
    dsimp only
    cases ht : toIter v with
    | error e =>
      intro hc
      have he : e = PyExn.notImplementedError := Except.error.inj hc
      exact toIter_ne_nie v (by rw [ht, he])
    | ok stubs =>
      exact housesResult_ne_nie _ (amb.fetchHousesList_ne_nie stubs oracle)
  | none =>
    dsimp only
    cases hf : failureValue (amb.api.get "house/houses-info" [] oracle).1 with
    | some e =>
      intro hc
      exact Except.noConfusion hc
    | none =>
      obtain ⟨e2, he2⟩ := failureValue_of_successValue_none hs
      rw [hf] at he2
      exact Option.noConfusion he2

/-- C10: `get` always returns either a `Success` or a `Failure`, and
consequently the `case _: raise NotImplementedError` fallback arms of
`Device.status`, `Ambientika.house_complete_info` and `Ambientika.houses`
are unreachable: no run of those operations raises
`NotImplementedError`. -/
theorem c10_fallback_unreachable :
    (∀ (api : AmbientikaApi) (path : String) (params : List (String × Json))
        (oracle : Oracle),
      (∃ v, (api.get path params oracle).1 = .Success v)
      ∨ (∃ e, (api.get path params oracle).1 = .Failure e))
    ∧ (∀ (d : Device) (oracle : Oracle),
        (d.status oracle).1 ≠ Except.error PyExn.notImplementedError)
    ∧ (∀ (amb : Ambientika) (house_id : Json) (oracle : Oracle),
        (amb.house_complete_info house_id oracle).1
          ≠ Except.error PyExn.notImplementedError)
    ∧ (∀ (amb : Ambientika) (oracle : Oracle),
        (amb.houses oracle).1 ≠ Except.error PyExn.notImplementedError) := by
  refine ⟨?_, ?_, ?_, ?_⟩
  · intro api path params oracle
    simp only [AmbientikaApi.get, interpretGetResponse]
    by_cases h : (oracle (api.getRequest path params)).status = 200
    · refine Or.inl ⟨(oracle (api.getRequest path params)).body, ?_⟩
      simp [h]
    · refine Or.inr ⟨⟨(oracle (api.getRequest path params)).status,
        errorData (oracle (api.getRequest path params))⟩, ?_⟩
      simp [h]
  · exact fun d oracle => Device.statusFromResult_ne_nie _
  · exact fun amb hid oracle => amb.house_complete_info_ne_nie hid oracle
  · exact fun amb oracle => amb.houses_ne_nie oracle

/-- Witness for C10: a concrete status call never surfaces the fallback
`NotImplementedError`. -/
theorem c10_fallback_unreachable_witness :
    ((Device.mk .null .null (.str "SN") .null .null .null .null .null .null
        ⟨"https://h", .null, "tok"⟩).status
        (fun _ => ⟨200, some "application/json", .null⟩)).1
      ≠ Except.error PyExn.notImplementedError :=
  c10_fallback_unreachable.2.1 _ _

/-- A fixed authenticated connection for concrete runs. -/
def mockApi : AmbientikaApi := ⟨"https://h", .null, "tok"⟩

/-- A fixed facade over `mockApi`. -/
def mockAmb : Ambientika := ⟨mockApi⟩

/-- A fixed device over `mockApi`. -/
def mockDevice : Device :=
  ⟨.num 1, .str "dt", .str "SN1", .num 7, .str "devname", .str "slave",
   .num 0, .str "inst", .num 2, mockApi⟩

/-- A status body whose `operatingMode` is not a recognized member name. -/
def badStatusJson : Json :=
  .obj [("operatingMode", .str "NotARealMode"), ("fanSpeed", .str "Low"),
        ("humidityLevel", .str "Dry"), ("temperature", .num 21),
        ("humidity", .num 55), ("airQuality", .str "good"),
        ("humidityAlarm", .bool false), ("filtersStatus", .str "ok"),
        ("nightAlarm", .bool false), ("deviceRole", .str "slave"),
        ("lastOperatingMode", .str "Night"), ("packetType", .str "p"),
        ("deviceType", .str "dt"), ("deviceSerialNumber", .str "SN1")]

/-- A server that always answers 200 with `badStatusJson`. -/
def badStatusOracle : Oracle :=
  fun _ => ⟨200, some "application/json", badStatusJson⟩

/-- Counterexample to C3: on a 200 status body whose `operatingMode` is
the unrecognized string `NotARealMode`, `Device.status` surfaces an
uncaught `KeyError` — there is no distinct `UnknownEnumValue` failure
value anywhere in the client, and the call does not return a tagged
failure result. -/
theorem c3_counterexample_unknown_enum_raises :
    (mockDevice.status badStatusOracle).1
      = Except.error (PyExn.keyError (.str "NotARealMode")) := by
  rfl

/-- C3 amended: when a 200 device-status body carries an `operatingMode`
string that is not a recognized member name (case-sensitive), the call
raises `KeyError` carrying that string — an uncaught exception, not a
failure value — and no partial `DeviceStatus` is constructed (the result
is an exception, not a `Success`). The same `IntEnum` name lookup guards
`fanSpeed`, `humidityLevel` and `lastOperatingMode`. -/
theorem c3_amended_unknown_enum_keyerror :
    ∀ (d : Device) (oracle : Oracle) (s : String),
      (oracle (d.api.getRequest "device/device-status"
        [("deviceSerialNumber", d.serial_number)])).status = 200 →
      getItem (oracle (d.api.getRequest "device/device-status"
        [("deviceSerialNumber", d.serial_number)])).body "operatingMode"
        = .ok (.str s) →
      OperatingMode.fromName s = none →
      (d.status oracle).1 = Except.error (PyExn.keyError (.str s)) := by
  intro d oracle s h200 hfield hname
  simp [Device.status, AmbientikaApi.get, interpretGetResponse, h200,
    Device.statusFromResult, matchHttpResult, successValue,
    parseDeviceStatus, hfield, hname, OperatingMode.fromWire,
    Bind.bind, Except.bind, Functor.map, Except.map]

/-- Witness for the amended C3, at the concrete `NotARealMode` fixture. -/
theorem c3_amended_unknown_enum_keyerror_witness :
    (mockDevice.status badStatusOracle).1
      = Except.error (PyExn.keyError (.str "NotARealMode")) :=
  c3_amended_unknown_enum_keyerror mockDevice badStatusOracle
    "NotARealMode" rfl rfl rfl

/-- The listing the mock server returns for `house/houses-info`:
three house stubs. -/
def houseStubsJson : Json :=
  .arr [.obj [("houseId", .num 1)], .obj [("houseId", .num 2)],
        .obj [("houseId", .num 3)]]

/-- A complete-info body for house `n`, with no rooms. -/
def houseJson (n : Int) : Json :=
  .obj [("userId", .num 7), ("id", .num n), ("name", .str "house"),
        ("zones", .arr []), ("rooms", .arr []), ("hasZones", .bool false),
        ("hasDevices", .bool false), ("address", .str "addr"),
        ("latitude", .num 0), ("longitude", .num 0)]

/-- The parsed `House` for `houseJson n`. -/
def houseVal (n : Int) : House :=
  ⟨.num 7, .num n, .str "house", .arr [], [], .bool false, .bool false,
   .str "addr", .num 0, .num 0⟩

/-- A mock server for which `house-complete-info` succeeds for houses 1
and 3 but answers 500 for house 2; every other request (the listing)
succeeds with the three stubs. -/
def dropOracle : Oracle := fun req =>
  match req.params with
  | [("houseId", .num (.ofNat 1))] => ⟨200, some "application/json", houseJson 1⟩
  | [("houseId", .num (.ofNat 2))] => ⟨500, none, .null⟩
  | [("houseId", .num (.ofNat 3))] => ⟨200, some "application/json", houseJson 3⟩
  | _ => ⟨200, some "application/json", houseStubsJson⟩

/-- Counterexample to C1: against `dropOracle` the outer listing succeeds
and the second house's `house_complete_info` fails, yet `houses` returns
a two-element `Success` list omitting the failed house — not the first
per-house `Failure` (which would be `{500, none}`). -/
theorem c1_counterexample_failure_dropped :
    interpretGetResponse
        (dropOracle (mockAmb.api.getRequest "house/houses-info" []))
      = .Success houseStubsJson
    ∧ (mockAmb.house_complete_info (.num 2) dropOracle).1
      = .ok (.Failure ⟨500, none⟩)
    ∧ (mockAmb.houses dropOracle).1
      = .ok (.Success [houseVal 1, houseVal 3])
    ∧ (mockAmb.houses dropOracle).1 ≠ .ok (.Failure ⟨500, none⟩) := by
  refine ⟨rfl, rfl, rfl, ?_⟩
  intro h
  rw [show (mockAmb.houses dropOracle).1
      = .ok (.Success [houseVal 1, houseVal 3]) from rfl] at h
  exact Result.noConfusion (Except.ok.inj h)

/-- C1 amended: per-house failures are silently dropped, not propagated:
a listed house whose `house_complete_info` returns a `Failure` contributes
`None` (through `value_or(None)`) and is filtered out of the result, so
`houses` returns `Success` of only the successfully fetched houses, in
listing order. -/
theorem c1_amended_failures_silently_dropped :
    (∀ (amb : Ambientika) (stub house_id : Json) (oracle : Oracle)
        (e : HttpError),
      getItem stub "houseId" = .ok house_id →
      (amb.house_complete_info house_id oracle).1 = .ok (.Failure e) →
      (amb.fetchHouse stub oracle).1 = .ok none)
    ∧ (mockAmb.houses dropOracle).1
      = .ok (.Success [houseVal 1, houseVal 3]) := by
  constructor
  · intro amb stub house_id oracle e hget hres
    simp [Ambientika.fetchHouse, hget, hres, fetchHouseResult, Result.valueOr]
  · rfl

/-- Witness for the amended C1: the failing second house contributes
`None` at the concrete mock. -/
theorem c1_amended_failures_silently_dropped_witness :
    (mockAmb.fetchHouse (.obj [("houseId", .num 2)]) dropOracle).1
      = .ok none :=
  c1_amended_failures_silently_dropped.1 mockAmb
    (.obj [("houseId", .num 2)]) (.num 2) dropOracle ⟨500, none⟩ rfl rfl

/-- Inversion for a successful bind. -/
theorem bind_eq_ok {α β : Type} {x : Except PyExn α} {f : α → Except PyExn β}
    {b : β} (h : x >>= f = .ok b) : ∃ a, x = .ok a ∧ f a = .ok b := by
  cases x with
  | error e => exact Except.noConfusion h
  | ok a => exact ⟨a, rfl, h⟩

/-- Inversion for a successful map. -/
theorem map_eq_ok {α β : Type} {x : Except PyExn α} {f : α → β} {b : β}
    (h : f <$> x = .ok b) : ∃ a, x = .ok a ∧ f a = b := by
  cases x with
  | error e => exact Except.noConfusion h
  | ok a => exact ⟨a, rfl, Except.ok.inj h⟩

/-- Every element of a successful comprehension comes from some element of
the input. -/
theorem mapExcept_mem {β : Type} {f : Json → Except PyExn β} :
    ∀ {xs : List Json} {ys : List β}, mapExcept f xs = .ok ys →
      ∀ y ∈ ys, ∃ x ∈ xs, f x = .ok y := by
  intro xs
  induction xs with
  | nil =>
    intro ys h y hy
    rw [show mapExcept f [] = .ok [] from rfl] at h
    rw [← Except.ok.inj h] at hy
    exact absurd hy (List.not_mem_nil y)
  | cons x xs ih =>
    intro ys h y hy
    unfold mapExcept at h
    obtain ⟨a, ha, h⟩ := bind_eq_ok h
    obtain ⟨as, has, h2⟩ := map_eq_ok h
    rw [← h2] at hy
    cases List.mem_cons.mp hy with
    | inl hya => exact ⟨x, List.mem_cons_self x xs, by rw [hya]; exact ha⟩
    | inr hyas =>
      obtain ⟨x2, hx2, hfx2⟩ := ih has y hyas
      exact ⟨x2, List.mem_cons_of_mem x hx2, hfx2⟩

/-- A successfully constructed device stores exactly the api it was
constructed with. -/
theorem device_fromData_api {data : Json} {api : AmbientikaApi} {d : Device}
    (h : Device.fromData data api = .ok d) : d.api = api := by
  unfold Device.fromData at h
  obtain ⟨a1, -, h⟩ := bind_eq_ok h
  obtain ⟨a2, -, h⟩ := bind_eq_ok h
  obtain ⟨a3, -, h⟩ := bind_eq_ok h
  obtain ⟨a4, -, h⟩ := bind_eq_ok h
  obtain ⟨a5, -, h⟩ := bind_eq_ok h
  obtain ⟨a6, -, h⟩ := bind_eq_ok h
  obtain ⟨a7, -, h⟩ := bind_eq_ok h
  obtain ⟨a8, -, h⟩ := bind_eq_ok h
  obtain ⟨a9, -, h⟩ := map_eq_ok h
  rw [← h]

/-- A successfully constructed room stores exactly the api it was
constructed with, as does each of its devices. -/
theorem room_fromData_api {data : Json} {api : AmbientikaApi} {r : Room}
    (h : Room.fromData data api = .ok r) :
    r.api = api ∧ ∀ dev ∈ r.devices, dev.api = api := by
  unfold Room.fromData at h
  obtain ⟨a1, -, h⟩ := bind_eq_ok h
  obtain ⟨a2, -, h⟩ := bind_eq_ok h
  obtain ⟨a3, -, h⟩ := bind_eq_ok h
  obtain ⟨a4, -, h⟩ := bind_eq_ok h
  obtain ⟨a5, -, h⟩ := bind_eq_ok h
  obtain ⟨djs, -, h⟩ := bind_eq_ok h
  obtain ⟨devs, hdevs, h⟩ := map_eq_ok h
  subst h
  refine ⟨rfl, ?_⟩
  intro dev hdev
  obtain ⟨dj, -, hfd⟩ := mapExcept_mem hdevs dev hdev
  exact device_fromData_api hfd

/-- A successfully constructed house threads the api it was constructed
with into every room and every device. -/
theorem house_fromData_api {data : Json} {api : AmbientikaApi} {hs : House}
    (h : House.fromData data api = .ok hs) :
    ∀ room ∈ hs.rooms, room.api = api ∧ ∀ dev ∈ room.devices, dev.api = api := by
  unfold House.fromData at h
  obtain ⟨a1, -, h⟩ := bind_eq_ok h
  obtain ⟨a2, -, h⟩ := bind_eq_ok h
  obtain ⟨a3, -, h⟩ := bind_eq_ok h
  obtain ⟨a4, -, h⟩ := bind_eq_ok h
  obtain ⟨a5, -, h⟩ := bind_eq_ok h
  obtain ⟨rjs, -, h⟩ := bind_eq_ok h
  obtain ⟨rooms, hrooms, h⟩ := bind_eq_ok h
  obtain ⟨a6, -, h⟩ := bind_eq_ok h
  obtain ⟨a7, -, h⟩ := bind_eq_ok h
  obtain ⟨a8, -, h⟩ := bind_eq_ok h
  obtain ⟨a9, -, h⟩ := bind_eq_ok h
  obtain ⟨a10, -, h⟩ := map_eq_ok h
  subst h
  intro room hroom
  obtain ⟨rj, -, hfr⟩ := mapExcept_mem hrooms room hroom
  exact room_fromData_api hfr

/-- Every request issued while fetching one house carries the bearer
header built from the facade's token. -/
theorem Ambientika.fetchHouse_headers (amb : Ambientika) (house : Json)
    (oracle : Oracle) :
    ∀ req ∈ (amb.fetchHouse house oracle).2,
      req.headers = [("Authorization", "Bearer " ++ amb.api.token)] := by
  intro req hreq
  unfold Ambientika.fetchHouse at hreq
  cases hg : getItem house "houseId" with
  | error e =>
    rw [hg] at hreq
    exact absurd hreq (List.not_mem_nil req)
  | ok hid =>
    simp only [hg] at hreq
    cases hh : (amb.house_complete_info hid oracle).1 with
    | error e =>
      simp only [hh, Ambientika.house_complete_info, AmbientikaApi.get] at hreq
      rw [List.mem_singleton.mp hreq]
      rfl
    | ok r =>
      simp only [hh, Ambientika.house_complete_info, AmbientikaApi.get] at hreq
      rw [List.mem_singleton.mp hreq]
      rfl

/-- Every request issued while fetching the listed houses carries the
bearer header built from the facade's token. -/
theorem Ambientika.fetchHousesList_headers (amb : Ambientika)
    (stubs : List Json) (oracle : Oracle) :
    ∀ req ∈ (amb.fetchHousesList stubs oracle).2,
      req.headers = [("Authorization", "Bearer " ++ amb.api.token)] := by
  induction stubs with
  | nil =>
    intro req hreq
    exact absurd hreq (List.not_mem_nil req)
  | cons h rest ih =>
    intro req hreq
    unfold Ambientika.fetchHousesList at hreq
    cases hf : amb.fetchHouse h oracle with
    | mk f1 f2 =>
      rw [hf] at hreq
      cases f1 with
      | error e =>
        exact amb.fetchHouse_headers h oracle req (by rw [hf]; exact hreq)
      | ok oh =>
        cases hr : amb.fetchHousesList rest oracle with
        | mk r1 r2 =>
          rw [hr] at hreq
          cases r1 with
          | error e2 =>
            cases List.mem_append.mp hreq with
            | inl hl => exact amb.fetchHouse_headers h oracle req (by rw [hf]; exact hl)
            | inr hrr => exact ih req (by rw [hr]; exact hrr)
          | ok ohs =>
            cases List.mem_append.mp hreq with
            | inl hl => exact amb.fetchHouse_headers h oracle req (by rw [hf]; exact hl)
            | inr hrr => exact ih req (by rw [hr]; exact hrr)

/-- C8: every request issued by `get`, `post`, `status`, `change_mode`,
`house_complete_info` and `houses` carries the header
`Authorization: Bearer <token>` built from the session's token; and no
operation changes the session triple — in this state-free embedding the
`AmbientikaApi` value is immutable by construction, and in addition every
`Room` and `Device` constructed by a successful `house_complete_info`
stores exactly the original `(host, id, token)` value. -/
theorem c8_bearer_header_and_session_immutable :
    (∀ (api : AmbientikaApi) (path : String) (params : List (String × Json))
        (oracle : Oracle), ∀ req ∈ (api.get path params oracle).2,
      req.headers = [("Authorization", "Bearer " ++ api.token)])
    ∧ (∀ (api : AmbientikaApi) (path : String) (body : Json)
        (oracle : Oracle), ∀ req ∈ (api.post path body oracle).2,
      req.headers = [("Authorization", "Bearer " ++ api.token)])
    ∧ (∀ (d : Device) (oracle : Oracle), ∀ req ∈ (d.status oracle).2,
      req.headers = [("Authorization", "Bearer " ++ d.api.token)])
    ∧ (∀ (d : Device) (mode : DeviceMode) (oracle : Oracle),
        ∀ req ∈ (d.change_mode mode oracle).2,
      req.headers = [("Authorization", "Bearer " ++ d.api.token)])
    ∧ (∀ (amb : Ambientika) (house_id : Json) (oracle : Oracle),
        ∀ req ∈ (amb.house_complete_info house_id oracle).2,
      req.headers = [("Authorization", "Bearer " ++ amb.api.token)])
    ∧ (∀ (amb : Ambientika) (oracle : Oracle),
        ∀ req ∈ (amb.houses oracle).2,
      req.headers = [("Authorization", "Bearer " ++ amb.api.token)])
    ∧ (∀ (amb : Ambientika) (house_id : Json) (oracle : Oracle) (h : House),
        (amb.house_complete_info house_id oracle).1 = .ok (.Success h) →
        ∀ room ∈ h.rooms, room.api = amb.api
          ∧ ∀ dev ∈ room.devices, dev.api = amb.api) := by
  refine ⟨?_, ?_, ?_, ?_, ?_, ?_, ?_⟩
  · intro api path params oracle req hreq
    rw [List.mem_singleton.mp hreq]
    rfl
  · intro api path body oracle req hreq
    rw [List.mem_singleton.mp hreq]
    rfl
  · intro d oracle req hreq
    rw [List.mem_singleton.mp hreq]
    rfl
  · intro d mode oracle req hreq
    rw [List.mem_singleton.mp hreq]
    rfl
  · intro amb house_id oracle req hreq
    rw [List.mem_singleton.mp hreq]
    rfl
  · intro amb oracle req hreq
    unfold Ambientika.houses at hreq
    cases hres : interpretGetResponse
        (oracle (amb.api.getRequest "house/houses-info" [])) with
    | Success v =>
      simp only [AmbientikaApi.get, hres, successValue] at hreq
      cases ht : toIter v with
      | error e =>
        simp only [ht] at hreq
        rw [List.mem_singleton.mp hreq]
        rfl
      | ok stubs =>
        simp only [ht] at hreq
        cases hl : amb.fetchHousesList stubs oracle with
        | mk l1 l2 =>
          simp only [hl] at hreq
          cases l1 with
          | error e =>
            cases List.mem_append.mp hreq with
            | inl hl1 =>
              rw [List.mem_singleton.mp hl1]
              rfl
            | inr hl2 =>
              exact amb.fetchHousesList_headers stubs oracle req
                (by rw [hl]; exact hl2)
          | ok ohs =>
            cases List.mem_append.mp hreq with
            | inl hl1 =>
              rw [List.mem_singleton.mp hl1]
              rfl
            | inr hl2 =>
              exact amb.fetchHousesList_headers stubs oracle req
                (by rw [hl]; exact hl2)
    | Failure e =>
      simp only [AmbientikaApi.get, hres, successValue, failureValue] at hreq
      rw [List.mem_singleton.mp hreq]
      rfl
  · intro amb house_id oracle h hok room hroom
    simp only [Ambientika.house_complete_info, AmbientikaApi.get] at hok
    cases hres : interpretGetResponse
        (oracle (amb.api.getRequest "house/house-complete-info"
          [("houseId", house_id)])) with
    | Success v =>
      rw [hres] at hok
      simp only [matchHttpResult, successValue] at hok
      obtain ⟨hs, hfd, heq⟩ := map_eq_ok hok
      rw [show hs = h from Result.Success.inj heq] at hfd
      exact house_fromData_api hfd room hroom
    | Failure e =>
      rw [hres] at hok
      simp only [matchHttpResult, successValue, failureValue] at hok
      exact absurd (Except.ok.inj hok) (fun hc => Result.noConfusion hc)

/-- Witness for C8: the concrete GET request carries the bearer header. -/
theorem c8_bearer_header_and_session_immutable_witness :
    (mockApi.getRequest "p" []).headers = [("Authorization", "Bearer tok")] :=
  c8_bearer_header_and_session_immutable.1 mockApi "p" []
    (fun _ => ⟨200, some "application/json", .null⟩)
    (mockApi.getRequest "p" []) (List.mem_singleton.mpr rfl)

end AmbientikaPy
